import Mathlib

/-!
Verification development for the custom URL-scheme registry and
request-interception layer of `atom/browser/api/atom_api_protocol.cc`.

The embedding is shallow: the process-global mutable state touched by
`RegisterSchemesAsPrivileged` (the published standard-scheme list, the URL
parser tables, the child-process security policy, the service-worker scheme
set and the process command line) is collected in a `GlobalState` record and
the C++ functions become pure state transformers.  The per-context job
factory of the network stack, the `ProtocolError` enum values, and the
switch-name constants live outside the given source file and are modelled
from the specification, as indicated in their doc comments.
-/

/-- The six privilege flags recognised by `RegisterSchemesAsPrivileged`, in
declaration order of the local booleans in the C++ function.  All default to
`true`. -/
structure Privileges where
  standard : Bool
  secure : Bool
  bypassCSP : Bool
  allowServiceWorkers : Bool
  supportFetchAPI : Bool
  corsEnabled : Bool
deriving DecidableEq, Repr

/-- The options dictionary handed to `registerSchemesAsPrivileged`, modelled
as an association list of boolean-valued keys.  `mate::Dictionary::Get`
leaves the out-parameter at its default when the key is absent, which is
what `dictGet` does. -/
def dictGet (d : List (String × Bool)) (key : String) (dflt : Bool) : Bool :=
  match d.lookup key with
  | some b => b
  | none => dflt

/-- Option parsing of `RegisterSchemesAsPrivileged`: when no options
dictionary is supplied (`args->Length() != 2` or conversion failure) every
flag keeps its default `true`; otherwise each of the six recognised keys is
looked up, the default surviving when the key is absent.  Keys outside the
six are never consulted. -/
def parsePrivileges (options : Option (List (String × Bool))) : Privileges :=
  match options with
  | none => ⟨true, true, true, true, true, true⟩
  | some d =>
      { standard := dictGet d "standard" true,
        secure := dictGet d "secure" true,
        bypassCSP := dictGet d "bypassCSP" true,
        allowServiceWorkers := dictGet d "allowServiceWorkers" true,
        supportFetchAPI := dictGet d "supportFetchAPI" true,
        corsEnabled := dictGet d "corsEnabled" true }

/-- Modelled from the spec: the switch-name constants of
`atom/common/options_switches` (that file is outside the given source), as
named in section 4.B of the specification. -/
def kStandardSchemes : String := "standard-schemes"

/-- Modelled from the spec: switch name for secure schemes. -/
def kSecureSchemes : String := "secure-schemes"

/-- Modelled from the spec: switch name for CSP-bypassing schemes. -/
def kBypassCSPSchemes : String := "bypass-csp-schemes"

/-- Modelled from the spec: switch name for CORS-enabled schemes. -/
def kCORSSchemes : String := "cors-schemes"

/-- Modelled from the spec: switch name for fetch-API schemes. -/
def kFetchSchemes : String := "fetch-schemes"

/-- Modelled from the spec: switch name for service-worker schemes. -/
def kServiceWorkerSchemes : String := "service-worker-schemes"

/-- The process-global state read and written by the scheme registry:
`standardSchemes` is `g_standard_schemes`; the four `url…` lists are the URL
parser tables mutated through `url::AddStandardScheme`, `AddSecureScheme`,
`AddCSPBypassingScheme` and `AddCORSEnabledScheme` (append-only); `webSafe`
is the child-process security policy's web-safe list
(`RegisterWebSafeScheme`); `serviceWorkerSchemes` is the set published via
`AtomBrowserClient::SetCustomServiceWorkerSchemes` (overwrite); `commandLine`
is the list of `(switch, value)` pairs appended through
`AppendSwitchASCII`; `isReady` is `Browser::Get()->is_ready()`. -/
structure GlobalState where
  standardSchemes : List String
  urlStandard : List String
  urlSecure : List String
  urlBypassCSP : List String
  urlCORS : List String
  webSafe : List String
  serviceWorkerSchemes : List String
  commandLine : List (String × String)
  isReady : Bool
deriving DecidableEq, Repr

/-- A fresh process before the application is ready: every table empty, no
switches on the command line. -/
def initState : GlobalState :=
  { standardSchemes := [], urlStandard := [], urlSecure := [], urlBypassCSP := [],
    urlCORS := [], webSafe := [], serviceWorkerSchemes := [], commandLine := [],
    isReady := false }

/-- `atom::api::GetStandardSchemes`: returns the global registered list. -/
def GetStandardSchemes (st : GlobalState) : List String :=
  st.standardSchemes

/-- The `std::unordered_set<std::string> switches` accumulator of
`RegisterSchemesAsPrivileged`.  Only the six fixed switch names can ever be
inserted, so the set is represented exactly by one membership bit per
name. -/
structure SwitchSet where
  standard : Bool
  secure : Bool
  bypassCSP : Bool
  cors : Bool
  fetch : Bool
  serviceWorker : Bool
deriving DecidableEq, Repr

/-- The empty switch set. -/
def emptySwitchSet : SwitchSet :=
  ⟨false, false, false, false, false, false⟩

/-- One iteration of the per-scheme loop of
`atom::api::RegisterSchemesAsPrivileged` (lines 69-93): each flag-guarded
block writes its URL table (append), the `standard` block additionally
overwrites `g_standard_schemes` with the whole input and registers the
scheme web-safe, and each block inserts its switch name into the set
(insertion into a set is idempotent, hence the boolean `or`). -/
def regSchemeStep (schemes : List String) (p : Privileges) (scheme : String)
    (st : GlobalState) (sw : SwitchSet) : GlobalState × SwitchSet :=
  ({ st with
      standardSchemes := if p.standard then schemes else st.standardSchemes,
      urlStandard := if p.standard then st.urlStandard ++ [scheme] else st.urlStandard,
      webSafe := if p.standard then st.webSafe ++ [scheme] else st.webSafe,
      urlSecure := if p.secure then st.urlSecure ++ [scheme] else st.urlSecure,
      urlBypassCSP := if p.bypassCSP then st.urlBypassCSP ++ [scheme] else st.urlBypassCSP,
      urlCORS := if p.corsEnabled then st.urlCORS ++ [scheme] else st.urlCORS },
   { sw with
      standard := sw.standard || p.standard,
      secure := sw.secure || p.secure,
      bypassCSP := sw.bypassCSP || p.bypassCSP,
      cors := sw.cors || p.corsEnabled,
      fetch := sw.fetch || p.supportFetchAPI })

/-- The per-scheme loop itself, folding `regSchemeStep` over the input
sequence. -/
def regLoop (schemes : List String) (p : Privileges) :
    List String → GlobalState → SwitchSet → GlobalState × SwitchSet
  | [], st, sw => (st, sw)
  | scheme :: rest, st, sw =>
      let r := regSchemeStep schemes p scheme st sw
      regLoop schemes p rest r.1 r.2

/-- The command-line entries appended after the loop: one `(switch, value)`
pair per element of the switch set.  `std::unordered_set` iteration order is
unspecified, so a fixed enumeration order is used here; every theorem below
about the command line is order-insensitive (membership and counts only). -/
def switchEntries (sw : SwitchSet) (value : String) : List (String × String) :=
  (if sw.standard then [(kStandardSchemes, value)] else []) ++
  (if sw.secure then [(kSecureSchemes, value)] else []) ++
  (if sw.bypassCSP then [(kBypassCSPSchemes, value)] else []) ++
  (if sw.cors then [(kCORSSchemes, value)] else []) ++
  (if sw.fetch then [(kFetchSchemes, value)] else []) ++
  (if sw.serviceWorker then [(kServiceWorkerSchemes, value)] else [])

/-- `atom::api::RegisterSchemesAsPrivileged` (lines 47-105): parse the
options, run the per-scheme loop, then (outside the loop) publish the whole
input as the service-worker scheme set when `allowServiceWorkers` holds, and
finally append one switch per accumulated class valued with the comma-join
of the input in input order. -/
def RegisterSchemesAsPrivilegedImpl (schemes : List String)
    (options : Option (List (String × Bool))) (st : GlobalState) : GlobalState :=
  let p := parsePrivileges options
  let r := regLoop schemes p schemes st emptySwitchSet
  let st2 := if p.allowServiceWorkers then
               { r.1 with serviceWorkerSchemes := schemes } else r.1
  let sw := if p.allowServiceWorkers then
              { r.2 with serviceWorker := true } else r.2
  { st2 with commandLine :=
      st2.commandLine ++ switchEntries sw (String.intercalate "," schemes) }

/-- The module-level wrapper (lines 253-263): after the application is
ready it throws (second component `some message`) and touches nothing;
before ready it delegates to `atom::api::RegisterSchemesAsPrivileged`. -/
def registerSchemesAsPrivileged (schemes : List String)
    (options : Option (List (String × Bool))) (st : GlobalState) :
    GlobalState × Option String :=
  if st.isReady then
    (st, some "protocol.registerSchemesAsPrivileged should be called before app is ready")
  else
    (RegisterSchemesAsPrivilegedImpl schemes options st, none)

/-- Modelled from the spec: the `ProtocolError` enum is declared in the
header (outside the given source); section 3 of the specification lists its
constants in order `OK, FAIL, REGISTERED, NOT_REGISTERED, INTERCEPTED,
NOT_INTERCEPTED`.  It is embedded as `Nat` so that out-of-range enum values
are representable. -/
def PROTOCOL_OK : Nat := 0

/-- Modelled from the spec: generic failure status. -/
def PROTOCOL_FAIL : Nat := 1

/-- Modelled from the spec: the scheme is already registered. -/
def PROTOCOL_REGISTERED : Nat := 2

/-- Modelled from the spec: the scheme is not registered. -/
def PROTOCOL_NOT_REGISTERED : Nat := 3

/-- Modelled from the spec: the scheme is already intercepted. -/
def PROTOCOL_INTERCEPTED : Nat := 4

/-- Modelled from the spec: the scheme is not intercepted. -/
def PROTOCOL_NOT_INTERCEPTED : Nat := 5

/-- `Protocol::ErrorCodeToString` (lines 194-209): the switch over the five
failure codes, with the `default` branch returning `"Unexpected error"`. -/
def ErrorCodeToString (error : Nat) : String :=
  if error = PROTOCOL_FAIL then "Failed to manipulate protocol factory"
  else if error = PROTOCOL_REGISTERED then "The scheme has been registered"
  else if error = PROTOCOL_NOT_REGISTERED then "The scheme has not been registered"
  else if error = PROTOCOL_INTERCEPTED then "The scheme has been intercepted"
  else if error = PROTOCOL_NOT_INTERCEPTED then "The scheme has not been intercepted"
  else "Unexpected error"

/-- `Protocol::OnIOCompleted` (lines 177-192), with the callback's
invocation made explicit: `callback = none` is a null callback (nothing
happens, result `none`); otherwise the callback is invoked once, with a
null argument on `PROTOCOL_OK` (result `some none`) and with an error
object carrying `ErrorCodeToString error` on any other status
(result `some (some message)`). -/
def OnIOCompleted (callback : Option Unit) (error : Nat) : Option (Option String) :=
  match callback with
  | none => none
  | some _ =>
      if error = PROTOCOL_OK then some none
      else some (some (ErrorCodeToString error))

/-- Modelled from the spec: delivery of the I/O-thread reply on the control
thread.  The reply is bound through `GetWeakPtr()` (lines 123 and 165);
section 5 of the specification requires that the reply path test the weak
self-reference and become a no-op when the Controller has been destroyed.
`controller = none` models an expired weak pointer. -/
def deliverReplyWeak (controller : Option Unit) (callback : Option Unit)
    (error : Nat) : Option (Option String) :=
  match controller with
  | none => none
  | some _ => OnIOCompleted callback error

/-- Modelled from the spec: the per-context job factory of the network
stack (`atom/browser/net`, outside the given source), through its contract
in section 6: an association list of registered per-scheme handlers, the
set of schemes with built-in handlers, and the installed interception
overrides.  Handlers are opaque identifiers. -/
structure JobFactory where
  handlers : List (String × Nat)
  builtins : List String
  interceptors : List (String × Nat)
deriving DecidableEq, Repr

/-- Modelled from the spec: `HasProtocolHandler(scheme)` of the job
factory — whether a registered handler exists for the scheme. -/
def hasProtocolHandler (f : JobFactory) (scheme : String) : Bool :=
  (f.handlers.lookup scheme).isSome

/-- Modelled from the spec: `SetProtocolHandler(scheme, handler)` of the
job factory — a null handler (`none`) erases the scheme's entry, a non-null
handler replaces it. -/
def setProtocolHandler (f : JobFactory) (scheme : String) (h : Option Nat) :
    JobFactory :=
  match h with
  | none => { f with handlers := f.handlers.filter (fun e => !(e.1 == scheme)) }
  | some job =>
      { f with handlers :=
          (scheme, job) :: f.handlers.filter (fun e => !(e.1 == scheme)) }

/-- Modelled from the spec: `IsHandledProtocol(scheme)` of the job
factory — whether any handler, registered or built-in, services the
scheme. -/
def isHandledProtocol (f : JobFactory) (scheme : String) : Bool :=
  hasProtocolHandler f scheme || f.builtins.contains scheme

/-- Modelled from the spec: `UninterceptProtocol(scheme)` of the job
factory — removes the interception override for the scheme and reports
whether one existed. -/
def uninterceptProtocol (f : JobFactory) (scheme : String) : Bool × JobFactory :=
  if (f.interceptors.lookup scheme).isSome then
    (true, { f with interceptors := f.interceptors.filter (fun e => !(e.1 == scheme)) })
  else (false, f)

/-- `Protocol::UnregisterProtocolInIO` (lines 127-135): when no handler is
registered for the scheme return `PROTOCOL_NOT_REGISTERED`; otherwise erase
the handler (`SetProtocolHandler(scheme, nullptr)`) and return
`PROTOCOL_OK`.  The mutated factory is returned alongside the status. -/
def UnregisterProtocolInIOThread (f : JobFactory) (scheme : String) :
    Nat × JobFactory :=
  if !(hasProtocolHandler f scheme) then (PROTOCOL_NOT_REGISTERED, f)
  else (PROTOCOL_OK, setProtocolHandler f scheme none)

/-- `Protocol::IsProtocolHandledInIO` (lines 149-153): forwards to the job
factory's `IsHandledProtocol`. -/
def IsProtocolHandledInIOThread (f : JobFactory) (scheme : String) : Bool :=
  isHandledProtocol f scheme

/-- `Protocol::UninterceptProtocolInIO` (lines 169-175): `PROTOCOL_OK` when
the job factory removed an override, `PROTOCOL_NOT_INTERCEPTED`
otherwise. -/
def UninterceptProtocolInIOThread (f : JobFactory) (scheme : String) :
    Nat × JobFactory :=
  let r := uninterceptProtocol f scheme
  (if r.1 then PROTOCOL_OK else PROTOCOL_NOT_INTERCEPTED, r.2)

/-- `Protocol::IsProtocolHandled` (lines 137-146): the boolean callback is
mandatory and is passed as the reply of the posted task, so it is invoked
exactly once, with the I/O-thread answer; the list collects its
invocations.  No error value can reach it: its argument type is a plain
boolean. -/
def IsProtocolHandled (f : JobFactory) (scheme : String) : List Bool :=
  [IsProtocolHandledInIOThread f scheme]

theorem lookup_filterKey_none (l : List (String × Nat)) (s : String) :
    (l.filter (fun e => !(e.1 == s))).lookup s = none := by
  induction l with
  | nil => rfl
  | cons a l ih =>
      rcases a with ⟨k, v⟩
      by_cases h : k = s
      · have hks : (!(k == s)) = false := by simp [h]
        simpa [List.filter_cons, hks] using ih
      · have hks : (!(k == s)) = true := by simp [h]
        have hsk : (s == k) = false := by simp [Ne.symm h]
        simp [List.filter_cons, hks, List.lookup, hsk, ih]

/-- C1: invoked after the application has signalled ready, the wrapper
throws exactly `"protocol.registerSchemesAsPrivileged should be called
before app is ready"` and returns the state unchanged: no command-line
switch is appended, the standard-scheme list is untouched, and no URL-table
or security-policy mutator runs. -/
theorem registerSchemesAsPrivileged_after_ready (st : GlobalState)
    (h : st.isReady = true) (schemes : List String)
    (options : Option (List (String × Bool))) :
    registerSchemesAsPrivileged schemes options st =
      (st, some "protocol.registerSchemesAsPrivileged should be called before app is ready") := by
  simp [registerSchemesAsPrivileged, h]

theorem registerSchemesAsPrivileged_after_ready_witness :
    registerSchemesAsPrivileged ["late"] none { initState with isReady := true } =
      ({ initState with isReady := true },
       some "protocol.registerSchemesAsPrivileged should be called before app is ready") :=
  registerSchemesAsPrivileged_after_ready { initState with isReady := true } rfl ["late"] none

/-- C6: the completion reporter does nothing when no callback was supplied,
invokes the callback with a null argument on `PROTOCOL_OK`, and on any
other status invokes it with an error whose message is
`ErrorCodeToString`, which yields the five fixed failure messages. -/
theorem onIOCompleted_reports (error : Nat) :
    OnIOCompleted none error = none
    ∧ OnIOCompleted (some ()) PROTOCOL_OK = some none
    ∧ (error ≠ PROTOCOL_OK →
        OnIOCompleted (some ()) error = some (some (ErrorCodeToString error)))
    ∧ ErrorCodeToString PROTOCOL_FAIL = "Failed to manipulate protocol factory"
    ∧ ErrorCodeToString PROTOCOL_REGISTERED = "The scheme has been registered"
    ∧ ErrorCodeToString PROTOCOL_NOT_REGISTERED = "The scheme has not been registered"
    ∧ ErrorCodeToString PROTOCOL_INTERCEPTED = "The scheme has been intercepted"
    ∧ ErrorCodeToString PROTOCOL_NOT_INTERCEPTED = "The scheme has not been intercepted" := by
  refine ⟨rfl, rfl, ?_, rfl, rfl, rfl, rfl, rfl⟩
  intro h
  simp [OnIOCompleted, h]

theorem onIOCompleted_reports_witness :
    OnIOCompleted (some ()) PROTOCOL_NOT_REGISTERED
      = some (some (ErrorCodeToString PROTOCOL_NOT_REGISTERED)) :=
  (onIOCompleted_reports PROTOCOL_NOT_REGISTERED).2.2.1 (by decide)

/-- C7: the reply of a posted mutation is bound through the weak
self-reference; when the controller has been destroyed before delivery
(expired weak pointer, `none`) the reply path is a no-op and the pending
completion callback is never invoked, while a live controller delivers
through the completion reporter. -/
theorem deliverReplyWeak_destroyed (callback : Option Unit) (error : Nat) :
    deliverReplyWeak none callback error = none
    ∧ deliverReplyWeak (some ()) callback error = OnIOCompleted callback error :=
  ⟨rfl, rfl⟩

/-- C9: `ErrorCodeToString` is total — every status outside the five
failure codes, `PROTOCOL_OK` and out-of-range values included, yields the
fallback `"Unexpected error"`. -/
theorem errorCodeToString_total (error : Nat)
    (h1 : error ≠ PROTOCOL_FAIL) (h2 : error ≠ PROTOCOL_REGISTERED)
    (h3 : error ≠ PROTOCOL_NOT_REGISTERED) (h4 : error ≠ PROTOCOL_INTERCEPTED)
    (h5 : error ≠ PROTOCOL_NOT_INTERCEPTED) :
    ErrorCodeToString error = "Unexpected error" := by
  simp [ErrorCodeToString, h1, h2, h3, h4, h5]

theorem errorCodeToString_total_witness :
    ErrorCodeToString PROTOCOL_OK = "Unexpected error" :=
  errorCodeToString_total PROTOCOL_OK (by decide) (by decide) (by decide)
    (by decide) (by decide)

/-- C8: `isProtocolHandled` always succeeds — the boolean callback is
invoked exactly once, with the job factory's answer to whether any handler,
registered or built-in, services the scheme, and no error can be
delivered. -/
theorem isProtocolHandled_query (f : JobFactory) (scheme : String) :
    IsProtocolHandled f scheme
        = [hasProtocolHandler f scheme || f.builtins.contains scheme]
    ∧ (IsProtocolHandled f scheme).length = 1 :=
  ⟨rfl, rfl⟩

/-- C4: `unregisterProtocol` succeeds — status `PROTOCOL_OK` with the
scheme's handler removed from the job factory — exactly when a handler for
the scheme existed; otherwise it reports `PROTOCOL_NOT_REGISTERED` and
leaves the factory unchanged. -/
theorem unregisterProtocol_status (f : JobFactory) (scheme : String) :
    (((UnregisterProtocolInIOThread f scheme).1 = PROTOCOL_OK
        ∧ hasProtocolHandler (UnregisterProtocolInIOThread f scheme).2 scheme = false)
      ↔ hasProtocolHandler f scheme = true)
    ∧ (hasProtocolHandler f scheme = false →
        UnregisterProtocolInIOThread f scheme = (PROTOCOL_NOT_REGISTERED, f)) := by
  by_cases hh : hasProtocolHandler f scheme = true
  · have hres : UnregisterProtocolInIOThread f scheme
        = (PROTOCOL_OK, setProtocolHandler f scheme none) := by
      simp [UnregisterProtocolInIOThread, hh]
    refine ⟨?_, fun h => by simp [hh] at h⟩
    rw [hres]
    constructor
    · intro _; exact hh
    · intro _
      exact ⟨rfl, by simp [setProtocolHandler, hasProtocolHandler, lookup_filterKey_none]⟩
  · have hf : hasProtocolHandler f scheme = false := by simpa using hh
    have hres : UnregisterProtocolInIOThread f scheme = (PROTOCOL_NOT_REGISTERED, f) := by
      simp [UnregisterProtocolInIOThread, hf]
    refine ⟨?_, fun _ => hres⟩
    rw [hres]
    simp [hf, PROTOCOL_NOT_REGISTERED, PROTOCOL_OK]

theorem unregisterProtocol_status_witness :
    UnregisterProtocolInIOThread ⟨[], [], []⟩ "foo"
      = (PROTOCOL_NOT_REGISTERED, ⟨[], [], []⟩) :=
  (unregisterProtocol_status ⟨[], [], []⟩ "foo").2 (by decide)

/-- C5: `uninterceptProtocol` reports `PROTOCOL_OK` exactly when the job
factory removed an existing override, and `PROTOCOL_NOT_INTERCEPTED` with
the factory unchanged otherwise; hence a second `uninterceptProtocol` on
the same scheme reports `PROTOCOL_NOT_INTERCEPTED`, whose delivered error
message is `"The scheme has not been intercepted"`. -/
theorem uninterceptProtocol_status (f : JobFactory) (scheme : String) :
    ((UninterceptProtocolInIOThread f scheme).1 = PROTOCOL_OK
        ↔ (uninterceptProtocol f scheme).1 = true)
    ∧ ((uninterceptProtocol f scheme).1 = false →
        UninterceptProtocolInIOThread f scheme = (PROTOCOL_NOT_INTERCEPTED, f))
    ∧ (UninterceptProtocolInIOThread
          (UninterceptProtocolInIOThread f scheme).2 scheme).1
        = PROTOCOL_NOT_INTERCEPTED
    ∧ OnIOCompleted (some ()) PROTOCOL_NOT_INTERCEPTED
        = some (some "The scheme has not been intercepted") := by
  by_cases h : (f.interceptors.lookup scheme).isSome = true
  · have hres : UninterceptProtocolInIOThread f scheme
        = (PROTOCOL_OK,
           { f with interceptors := f.interceptors.filter (fun e => !(e.1 == scheme)) }) := by
      simp [UninterceptProtocolInIOThread, uninterceptProtocol, h]
    refine ⟨?_, ?_, ?_, rfl⟩
    · rw [hres]
      simp [uninterceptProtocol, h]
    · intro hf
      simp [uninterceptProtocol, h] at hf
    · rw [hres]
      simp [UninterceptProtocolInIOThread, uninterceptProtocol,
            lookup_filterKey_none]
  · have hn : (f.interceptors.lookup scheme).isSome = false := by
      cases hx : (f.interceptors.lookup scheme).isSome
      · rfl
      · exact absurd hx h
    have hres : UninterceptProtocolInIOThread f scheme
        = (PROTOCOL_NOT_INTERCEPTED, f) := by
      simp [UninterceptProtocolInIOThread, uninterceptProtocol, hn]
    refine ⟨?_, fun _ => hres, ?_, rfl⟩
    · rw [hres]
      simp [uninterceptProtocol, hn, PROTOCOL_NOT_INTERCEPTED, PROTOCOL_OK]
    · rw [hres]
      simp [UninterceptProtocolInIOThread, uninterceptProtocol, hn]

theorem uninterceptProtocol_status_witness :
    UninterceptProtocolInIOThread ⟨[], [], []⟩ "https"
      = (PROTOCOL_NOT_INTERCEPTED, ⟨[], [], []⟩) :=
  (uninterceptProtocol_status ⟨[], [], []⟩ "https").2.1 (by decide)

/-- The six privilege classes, used to index switch names and flags. -/
inductive PrivClass
  | standard
  | secure
  | bypassCSP
  | cors
  | fetch
  | serviceWorker
deriving DecidableEq, Repr

/-- The fixed switch name of each privilege class. -/
def switchName : PrivClass → String
  | .standard => kStandardSchemes
  | .secure => kSecureSchemes
  | .bypassCSP => kBypassCSPSchemes
  | .cors => kCORSSchemes
  | .fetch => kFetchSchemes
  | .serviceWorker => kServiceWorkerSchemes

/-- The option flag governing each privilege class. -/
def flagOf (p : Privileges) : PrivClass → Bool
  | .standard => p.standard
  | .secure => p.secure
  | .bypassCSP => p.bypassCSP
  | .cors => p.corsEnabled
  | .fetch => p.supportFetchAPI
  | .serviceWorker => p.allowServiceWorkers

/-- Membership bit of a privilege class in the switch set. -/
def swGet (sw : SwitchSet) : PrivClass → Bool
  | .standard => sw.standard
  | .secure => sw.secure
  | .bypassCSP => sw.bypassCSP
  | .cors => sw.cors
  | .fetch => sw.fetch
  | .serviceWorker => sw.serviceWorker

/-- The switch set accumulated by a full run of
`RegisterSchemesAsPrivileged`: each per-scheme class is present when its
flag holds and the loop ran at least once; the service-worker class
whenever its flag holds. -/
def finalSwitches (p : Privileges) (schemes : List String) : SwitchSet :=
  { standard := p.standard && !schemes.isEmpty,
    secure := p.secure && !schemes.isEmpty,
    bypassCSP := p.bypassCSP && !schemes.isEmpty,
    cors := p.corsEnabled && !schemes.isEmpty,
    fetch := p.supportFetchAPI && !schemes.isEmpty,
    serviceWorker := p.allowServiceWorkers }

theorem count_switchEntries (sw : SwitchSet) (value : String) (c : PrivClass) :
    (switchEntries sw value).count (switchName c, value)
      = if swGet sw c then 1 else 0 := by
  cases c <;>
    simp [switchEntries, switchName, swGet, List.count_append, List.count_cons,
          kStandardSchemes, kSecureSchemes, kBypassCSPSchemes, kCORSSchemes,
          kFetchSchemes, kServiceWorkerSchemes, apply_ite (List.count _)]

theorem countP_switchEntries (sw : SwitchSet) (value : String) (c : PrivClass) :
    (switchEntries sw value).countP (fun e => e.1 == switchName c)
      = if swGet sw c then 1 else 0 := by
  cases c <;>
    simp [switchEntries, switchName, swGet, List.countP_append, List.countP_cons,
          kStandardSchemes, kSecureSchemes, kBypassCSPSchemes, kCORSSchemes,
          kFetchSchemes, kServiceWorkerSchemes, apply_ite (List.countP _)]

theorem regLoop_fst_commandLine (schemes : List String) (p : Privileges)
    (l : List String) (st : GlobalState) (sw : SwitchSet) :
    (regLoop schemes p l st sw).1.commandLine = st.commandLine := by
  induction l generalizing st sw with
  | nil => rfl
  | cons x xs ih => simp [regLoop, regSchemeStep, ih]

theorem regLoop_fst_serviceWorkerSchemes (schemes : List String) (p : Privileges)
    (l : List String) (st : GlobalState) (sw : SwitchSet) :
    (regLoop schemes p l st sw).1.serviceWorkerSchemes = st.serviceWorkerSchemes := by
  induction l generalizing st sw with
  | nil => rfl
  | cons x xs ih => simp [regLoop, regSchemeStep, ih]

theorem regLoop_fst_isReady (schemes : List String) (p : Privileges)
    (l : List String) (st : GlobalState) (sw : SwitchSet) :
    (regLoop schemes p l st sw).1.isReady = st.isReady := by
  induction l generalizing st sw with
  | nil => rfl
  | cons x xs ih => simp [regLoop, regSchemeStep, ih]

theorem regLoop_fst_standardSchemes (schemes : List String) (p : Privileges)
    (l : List String) (st : GlobalState) (sw : SwitchSet) :
    (regLoop schemes p l st sw).1.standardSchemes =
      if p.standard = true ∧ l ≠ [] then schemes else st.standardSchemes := by
  induction l generalizing st sw with
  | nil => simp [regLoop]
  | cons x xs ih =>
      simp only [regLoop]
      rw [ih]
      by_cases hp : p.standard = true
      · simp [regSchemeStep, hp]
      · simp [regSchemeStep, hp]

theorem regLoop_snd (schemes : List String) (p : Privileges)
    (l : List String) (st : GlobalState) (sw : SwitchSet) :
    (regLoop schemes p l st sw).2 =
      { standard := sw.standard || (p.standard && !l.isEmpty),
        secure := sw.secure || (p.secure && !l.isEmpty),
        bypassCSP := sw.bypassCSP || (p.bypassCSP && !l.isEmpty),
        cors := sw.cors || (p.corsEnabled && !l.isEmpty),
        fetch := sw.fetch || (p.supportFetchAPI && !l.isEmpty),
        serviceWorker := sw.serviceWorker } := by
  induction l generalizing st sw with
  | nil => simp [regLoop]
  | cons x xs ih =>
      simp only [regLoop]
      rw [ih]
      cases hp1 : p.standard <;> cases hp2 : p.secure <;> cases hp3 : p.bypassCSP <;>
        cases hp4 : p.corsEnabled <;> cases hp5 : p.supportFetchAPI <;>
        simp [regSchemeStep, hp1, hp2, hp3, hp4, hp5]

theorem impl_commandLine (schemes : List String)
    (options : Option (List (String × Bool))) (st : GlobalState) :
    (RegisterSchemesAsPrivilegedImpl schemes options st).commandLine =
      st.commandLine ++
        switchEntries (finalSwitches (parsePrivileges options) schemes)
          (String.intercalate "," schemes) := by
  unfold RegisterSchemesAsPrivilegedImpl
  by_cases hsw : (parsePrivileges options).allowServiceWorkers = true
  · simp [hsw, regLoop_fst_commandLine, regLoop_snd, finalSwitches, emptySwitchSet]
  · have h2 : (parsePrivileges options).allowServiceWorkers = false := by
      cases hx : (parsePrivileges options).allowServiceWorkers
      · rfl
      · exact absurd hx hsw
    simp [h2, regLoop_fst_commandLine, regLoop_snd, finalSwitches, emptySwitchSet]

theorem impl_standardSchemes (schemes : List String)
    (options : Option (List (String × Bool))) (st : GlobalState) :
    (RegisterSchemesAsPrivilegedImpl schemes options st).standardSchemes =
      if (parsePrivileges options).standard = true ∧ schemes ≠ [] then schemes
      else st.standardSchemes := by
  unfold RegisterSchemesAsPrivilegedImpl
  by_cases hsw : (parsePrivileges options).allowServiceWorkers = true
  · simp [hsw, regLoop_fst_standardSchemes]
  · have h2 : (parsePrivileges options).allowServiceWorkers = false := by
      cases hx : (parsePrivileges options).allowServiceWorkers
      · rfl
      · exact absurd hx hsw
    simp [h2, regLoop_fst_standardSchemes]

theorem impl_serviceWorkerSchemes (schemes : List String)
    (options : Option (List (String × Bool))) (st : GlobalState) :
    (RegisterSchemesAsPrivilegedImpl schemes options st).serviceWorkerSchemes =
      if (parsePrivileges options).allowServiceWorkers = true then schemes
      else st.serviceWorkerSchemes := by
  unfold RegisterSchemesAsPrivilegedImpl
  by_cases hsw : (parsePrivileges options).allowServiceWorkers = true
  · simp [hsw, regLoop_fst_serviceWorkerSchemes]
  · have h2 : (parsePrivileges options).allowServiceWorkers = false := by
      cases hx : (parsePrivileges options).allowServiceWorkers
      · rfl
      · exact absurd hx hsw
    simp [h2, regLoop_fst_serviceWorkerSchemes]

theorem impl_isReady (schemes : List String)
    (options : Option (List (String × Bool))) (st : GlobalState) :
    (RegisterSchemesAsPrivilegedImpl schemes options st).isReady = st.isReady := by
  unfold RegisterSchemesAsPrivilegedImpl
  by_cases hsw : (parsePrivileges options).allowServiceWorkers = true
  · simp [hsw, regLoop_fst_isReady]
  · have h2 : (parsePrivileges options).allowServiceWorkers = false := by
      cases hx : (parsePrivileges options).allowServiceWorkers
      · rfl
      · exact absurd hx hsw
    simp [h2, regLoop_fst_isReady]

theorem swGet_finalSwitches (p : Privileges) (schemes : List String)
    (hne : schemes ≠ []) (c : PrivClass) :
    swGet (finalSwitches p schemes) c = flagOf p c := by
  have h : schemes.isEmpty = false := by
    cases schemes
    · exact absurd rfl hne
    · rfl
  cases c <;> simp [finalSwitches, swGet, flagOf, h]

theorem dictGet_cons_ne (k : String) (b : Bool) (d : List (String × Bool))
    (key : String) (dflt : Bool) (h : ¬ key = k) :
    dictGet ((k, b) :: d) key dflt = dictGet d key dflt := by
  have hb : (key == k) = false := by simp [h]
  simp [dictGet, List.lookup, hb]

theorem registerSchemesAsPrivileged_not_ready (schemes : List String)
    (options : Option (List (String × Bool))) (st : GlobalState)
    (h : st.isReady = false) :
    registerSchemesAsPrivileged schemes options st =
      (RegisterSchemesAsPrivilegedImpl schemes options st, none) := by
  simp [registerSchemesAsPrivileged, h]

/-- C2: after a successful `registerSchemesAsPrivileged([s], o)` on a fresh
pre-ready process, every privilege class whose flag is true in the options
has exactly one switch of its fixed name on the command line, valued
exactly `s`; for a multi-scheme input the value is the comma-join of the
schemes in input order; omitting the options defaults all six flags to
`true`; and options with unrecognised keys are ignored. -/
theorem registerSchemesAsPrivileged_switches (s : String)
    (opts : Option (List (String × Bool))) (c : PrivClass)
    (schemes : List String) (hne : schemes ≠ []) :
    (flagOf (parsePrivileges opts) c = true →
      ((registerSchemesAsPrivileged [s] opts initState).1.commandLine.countP
          (fun e => e.1 == switchName c) = 1
        ∧ (registerSchemesAsPrivileged [s] opts initState).1.commandLine.count
          (switchName c, s) = 1))
    ∧ (flagOf (parsePrivileges opts) c = true →
        (registerSchemesAsPrivileged schemes opts initState).1.commandLine.count
          (switchName c, String.intercalate "," schemes) = 1)
    ∧ parsePrivileges none = ⟨true, true, true, true, true, true⟩
    ∧ (∀ (k : String) (b : Bool) (d : List (String × Bool)),
        ¬ (k = "standard" ∨ k = "secure" ∨ k = "bypassCSP"
            ∨ k = "allowServiceWorkers" ∨ k = "supportFetchAPI"
            ∨ k = "corsEnabled") →
        parsePrivileges (some ((k, b) :: d)) = parsePrivileges (some d)) := by
  have hcl : ∀ L : List String,
      (registerSchemesAsPrivileged L opts initState).1.commandLine =
        switchEntries (finalSwitches (parsePrivileges opts) L)
          (String.intercalate "," L) := by
    intro L
    have : (registerSchemesAsPrivileged L opts initState).1 =
        RegisterSchemesAsPrivilegedImpl L opts initState := by
      simp [registerSchemesAsPrivileged, initState]
    rw [this, impl_commandLine]
    rfl
  refine ⟨?_, ?_, rfl, ?_⟩
  · intro hflag
    have hone : String.intercalate "," [s] = s := rfl
    constructor
    · rw [hcl [s], countP_switchEntries, swGet_finalSwitches _ _ (by simp) c, hflag]
      rfl
    · rw [hcl [s], hone, count_switchEntries, swGet_finalSwitches _ _ (by simp) c, hflag]
      rfl
  · intro hflag
    rw [hcl schemes, count_switchEntries, swGet_finalSwitches _ _ hne c, hflag]
    rfl
  · intro k b d hk
    have h1 : ¬ ("standard" : String) = k := fun hh => hk (Or.inl hh.symm)
    have h2 : ¬ ("secure" : String) = k := fun hh => hk (Or.inr (Or.inl hh.symm))
    have h3 : ¬ ("bypassCSP" : String) = k := fun hh =>
      hk (Or.inr (Or.inr (Or.inl hh.symm)))
    have h4 : ¬ ("allowServiceWorkers" : String) = k := fun hh =>
      hk (Or.inr (Or.inr (Or.inr (Or.inl hh.symm))))
    have h5 : ¬ ("supportFetchAPI" : String) = k := fun hh =>
      hk (Or.inr (Or.inr (Or.inr (Or.inr (Or.inl hh.symm)))))
    have h6 : ¬ ("corsEnabled" : String) = k := fun hh =>
      hk (Or.inr (Or.inr (Or.inr (Or.inr (Or.inr hh.symm)))))
    simp only [parsePrivileges, Privileges.mk.injEq]
    exact ⟨dictGet_cons_ne _ _ _ _ _ h1, dictGet_cons_ne _ _ _ _ _ h2,
           dictGet_cons_ne _ _ _ _ _ h3, dictGet_cons_ne _ _ _ _ _ h4,
           dictGet_cons_ne _ _ _ _ _ h5, dictGet_cons_ne _ _ _ _ _ h6⟩

theorem registerSchemesAsPrivileged_switches_witness :
    (registerSchemesAsPrivileged ["x", "y"] (some []) initState).1.commandLine.count
        (switchName PrivClass.standard, String.intercalate "," ["x", "y"]) = 1 :=
  (registerSchemesAsPrivileged_switches "app" (some []) PrivClass.standard
      ["x", "y"] (by decide)).2.1 (by decide)

/-- C3: two pre-ready calls with the `standard` flag true and scheme lists
`L1` then `L2` leave `getStandardSchemes()` equal to exactly `L2` — the
second call overwrites the published standard-scheme list wholesale. -/
theorem getStandardSchemes_overwrite (st : GlobalState)
    (L1 L2 : List String) (o1 o2 : Option (List (String × Bool)))
    (hready : st.isReady = false)
    (h1 : (parsePrivileges o1).standard = true)
    (h2 : (parsePrivileges o2).standard = true)
    (hne : L2 ≠ []) :
    GetStandardSchemes
        (registerSchemesAsPrivileged L2 o2
          (registerSchemesAsPrivileged L1 o1 st).1).1 = L2 := by
  have hr1 : (registerSchemesAsPrivileged L1 o1 st).1 =
      RegisterSchemesAsPrivilegedImpl L1 o1 st := by
    rw [registerSchemesAsPrivileged_not_ready L1 o1 st hready]
  have hready2 : (registerSchemesAsPrivileged L1 o1 st).1.isReady = false := by
    rw [hr1, impl_isReady]
    exact hready
  rw [GetStandardSchemes,
      registerSchemesAsPrivileged_not_ready L2 o2 _ hready2, impl_standardSchemes]
  simp [h2, hne]

theorem getStandardSchemes_overwrite_witness :
    GetStandardSchemes
        (registerSchemesAsPrivileged ["b"] none
          (registerSchemesAsPrivileged ["a"] none initState).1).1 = ["b"] :=
  getStandardSchemes_overwrite initState ["a"] ["b"] none none rfl rfl rfl (by decide)

/-- C10: a pre-ready call with an empty scheme list and omitted options
performs none of the per-scheme effects — the published standard-scheme
list, the URL tables and the web-safe policy are unchanged and no
standard/secure/bypass-csp/cors/fetch switch is appended — yet it still
overwrites the service-worker scheme set with the empty list and appends
the service-worker switch with an empty value, because the
`allowServiceWorkers` effect runs outside the per-scheme loop. -/
theorem registerSchemesAsPrivileged_empty (st : GlobalState)
    (h : st.isReady = false) :
    (registerSchemesAsPrivileged [] none st).1.standardSchemes = st.standardSchemes
    ∧ (registerSchemesAsPrivileged [] none st).1.urlStandard = st.urlStandard
    ∧ (registerSchemesAsPrivileged [] none st).1.urlSecure = st.urlSecure
    ∧ (registerSchemesAsPrivileged [] none st).1.urlBypassCSP = st.urlBypassCSP
    ∧ (registerSchemesAsPrivileged [] none st).1.urlCORS = st.urlCORS
    ∧ (registerSchemesAsPrivileged [] none st).1.webSafe = st.webSafe
    ∧ (registerSchemesAsPrivileged [] none st).1.serviceWorkerSchemes = []
    ∧ (registerSchemesAsPrivileged [] none st).1.commandLine
        = st.commandLine ++ [(kServiceWorkerSchemes, "")] := by
  have hr : (registerSchemesAsPrivileged [] none st).1 =
      RegisterSchemesAsPrivilegedImpl [] none st := by
    simp [registerSchemesAsPrivileged, h]
  rw [hr]
  exact ⟨rfl, rfl, rfl, rfl, rfl, rfl, rfl, rfl⟩

theorem registerSchemesAsPrivileged_empty_witness :
    (registerSchemesAsPrivileged [] none
        { initState with standardSchemes := ["app"] }).1.standardSchemes = ["app"]
    ∧ (registerSchemesAsPrivileged [] none
        { initState with standardSchemes := ["app"] }).1.commandLine
      = [(kServiceWorkerSchemes, "")] := by
  have h := registerSchemesAsPrivileged_empty
    { initState with standardSchemes := ["app"] } rfl
  exact ⟨h.1, h.2.2.2.2.2.2.2⟩
